import Mathlib

/-!
Formal model of `src/app.py`, an Aha!-webhook service that analyzes idea
submissions, posts a draft private comment back to Aha!, and notifies Slack.

Python strings are modelled as `List Char` (`PyStr`); JSON-like Python values
as the inductive `JVal`; Python exceptions as `Except PyExn`.  The three
outbound HTTP interactions (OpenAI chat completion, Aha! comment POST, Slack
webhook POST) are modelled by an oracle `World` fixing the outcome of each
call, and every modelled function returns the list of outbound calls it
performed alongside its result.
-/

/-- Python strings, modelled as character lists. -/
abbrev PyStr := List Char

/-- JSON-like Python values: `None`, booleans, integers, strings, lists, dicts. -/
inductive JVal where
  | null
  | bool (b : Bool)
  | num (n : Int)
  | str (s : PyStr)
  | arr (xs : List JVal)
  | obj (kvs : List (String × JVal))

/-- Python exceptions relevant to the modelled code paths. -/
inductive PyExn where
  /-- `AttributeError`, e.g. calling `.get`/`.keys` on a non-dict. -/
  | attributeError
  /-- `TypeError`, e.g. `re.sub` on a non-string, joining a non-iterable. -/
  | typeError
  /-- `json.JSONDecodeError` from `resp.json()` on an unparseable body. -/
  | jsonError
  /-- A `requests` transport exception (timeout, connection error, ...). -/
  | requestError
deriving DecidableEq

/-- Python truthiness of a `JVal` (`bool(x)`). -/
def truthy : JVal → Bool
  | .null => false
  | .bool b => b
  | .num n => n != 0
  | .str s => !s.isEmpty
  | .arr xs => !xs.isEmpty
  | .obj kvs => !kvs.isEmpty

/-- `d.get(k)` on a dict known to be a dict: stored value, or `None` if absent. -/
def jLookup (kvs : List (String × JVal)) (k : String) : JVal :=
  (kvs.lookup k).getD .null

/-- `d.get(k, default)` on a dict known to be a dict. -/
def jLookupD (kvs : List (String × JVal)) (k : String) (d : JVal) : JVal :=
  (kvs.lookup k).getD d

/-- `v.get(k)` on an arbitrary value: raises `AttributeError` unless a dict. -/
def jvGet (v : JVal) (k : String) : Except PyExn JVal :=
  match v with
  | .obj kvs => .ok (jLookup kvs k)
  | _ => .error .attributeError

/-- Python `str(x)`.  For scalar values this matches CPython exactly; for
lists and dicts CPython produces the full `repr`, abbreviated here to a fixed
marker since no modelled claim inspects the rendering of a composite value
(only, at most, that it is a nonempty string, which holds in CPython too). -/
def pyStr : JVal → PyStr
  | .null => "None".data
  | .bool true => "True".data
  | .bool false => "False".data
  | .num n => (toString n).data
  | .str s => s
  | .arr _ => "<list>".data
  | .obj _ => "<dict>".data

/-- `s.rstrip("/")` (line 31 / line 115 of app.py). -/
def rstripSlash (s : PyStr) : PyStr :=
  (s.reverse.dropWhile (fun c => c = '/')).reverse

/-- Whitespace characters stripped by Python `str.strip()`. -/
def isPySpace (c : Char) : Bool :=
  c = ' ' || c = '\t' || c = '\n' || c = '\r' || c = '\x0b' || c = '\x0c'

/-- Python `s.strip()`. -/
def pyStrip (s : PyStr) : PyStr :=
  ((s.dropWhile isPySpace).reverse.dropWhile isPySpace).reverse

/-! ## `_strip_html` (app.py lines 12-16): `re.sub(r"<[^>]+>", "", text)`

The regex matches, at a `<`, one or more non-`>` characters followed by `>`.
`re.sub` scans left to right, replacing leftmost non-overlapping matches by
the empty string and resuming after each match.  The recursion is expressed
with an explicit character-count fuel so the definition is structural and
hence computable by `decide`/`rfl`; the fuel is always sufficient. -/

/-- `true` for characters matched by the regex class `[^>]`. -/
def notGt (c : Char) : Bool :=
  if c = '>' then false else true

/-- Attempt the regex `<[^>]+>` at a position whose `<` has been consumed:
`l` is the text after the `<`.  Returns the remainder after the closing `>`
when `[^>]+>` matches here, `none` otherwise. -/
def matchTag (l : PyStr) : Option PyStr :=
  if l.takeWhile notGt = [] then none
  else
    match l.dropWhile notGt with
    | [] => none
    | _ :: rest => some rest

/-- `_strip_html`, fuelled: removes every leftmost non-overlapping match of
`<[^>]+>`.  A character not opening a match is kept and scanning resumes
after it; a match is deleted and scanning resumes after its `>`. -/
def stripHtmlFuel : Nat → PyStr → PyStr
  | 0, _ => []
  | _ + 1, [] => []
  | fuel + 1, c :: rest =>
    if c = '<' then
      match matchTag rest with
      | some rest2 => stripHtmlFuel fuel rest2
      | none => c :: stripHtmlFuel fuel rest
    else c :: stripHtmlFuel fuel rest

/-- `_strip_html` from app.py (the `if not text: return ""` guard is the
`[]` case). -/
def strip_html (l : PyStr) : PyStr :=
  stripHtmlFuel l.length l

/-- `_shorten` from app.py lines 18-22: Slack block text has a 3000-char
limit; return `s` unchanged when within `limit`, else truncate to `limit`
characters and append a single ellipsis character. -/
def shorten (s : PyStr) (limit : Nat) : PyStr :=
  if s = [] then []
  else if s.length ≤ limit then s else s.take limit ++ ['…']

/-- A text on which the stripper is inert: no position opens a regex match. -/
def noTag : PyStr → Bool
  | [] => true
  | c :: rest => (if c = '<' then (matchTag rest).isNone else true) && noTag rest

/-! ## Configuration, outbound-call oracle, call traces -/

/-- Environment configuration read by app.py (lines 115-120), stored as the
raw environment-variable values; `.rstrip("/")` is applied where the code
applies it.  (The Aha! token and the OpenAI model name only flow into request
headers/bodies that no claim inspects, so they are not modelled.) -/
structure Env where
  AHA_BASE_URL : PyStr
  SLACK_WEBHOOK_URL : PyStr
  OPENAI_API_KEY : PyStr

/-- Outcome of one outbound HTTP request, fixed by the oracle: either the
client raises a transport exception, or a response with a status code and a
parsed JSON body arrives (`none` = the body is not parseable as the expected
JSON).  For the OpenAI call, `body` stands for the result of
`response.json()["choices"][0]["message"]["content"]` followed by
`json.loads`: `some v` if that whole chain succeeds with value `v`, `none`
if any step of it fails. -/
inductive HttpResult where
  | exn
  | resp (status : Nat) (body : Option JVal)

/-- The oracle: one fixed outcome per outbound endpoint. -/
structure World where
  openai : HttpResult
  aha : HttpResult
  slack : HttpResult

/-- A Slack message block (build_slack_blocks builds a list of these). -/
inductive Block where
  /-- `{"type": "header", "text": {"type": "plain_text", "text": ..}}` -/
  | header (text : PyStr)
  /-- `{"type": "section", "fields": [{..text f1}, {..text f2}]}` -/
  | fieldsSection (f1 f2 : PyStr)
  /-- `{"type": "divider"}` -/
  | divider
  /-- `{"type": "section", "text": {"type": "mrkdwn", "text": ..}}` -/
  | textSection (text : PyStr)

/-- One outbound call, as recorded in a trace. -/
inductive Call where
  /-- POST to the OpenAI chat-completions endpoint. -/
  | openaiCall
  /-- POST of `payload` to `{AHA_BASE_URL}/api/v1/ideas/{id}/comments`. -/
  | ahaComment (path : PyStr) (payload : JVal)
  /-- POST of `{"text": .., "blocks": ..}` to the Slack webhook URL. -/
  | slackPost (text : PyStr) (blocks : Option (List Block))

/-- Is this call a comment POST to Aha!? -/
def isCommentCall : Call → Bool
  | .ahaComment _ _ => true
  | _ => false

/-- Is this call a Slack webhook POST? -/
def isSlackCall : Call → Bool
  | .slackPost _ _ => true
  | _ => false

/-- An inbound HTTP response of the Flask handler: either a plain-text body
with an explicit status (like `("no idea id", 400)`), or `jsonify(...)`,
which responds 200. -/
inductive HttpResp where
  | textResp (body : PyStr) (status : Nat)
  | jsonResp (body : JVal)

/-- HTTP status code of an inbound response (`jsonify` responds 200). -/
def respStatus : HttpResp → Nat
  | .textResp _ s => s
  | .jsonResp _ => 200

/-- A field of a JSON object (for stating claims about response bodies). -/
def jField : JVal → String → JVal
  | .obj kvs, k => jLookup kvs k
  | _, _ => .null

/-! ## Slack notification (app.py lines 133-142) -/

/-- `slack_notify(text, blocks)`: a no-op when no webhook URL is configured;
otherwise posts `{"text": .., "blocks": ..}` (the `blocks` key only when the
list is truthy) and swallows any transport exception (`try/except: pass`),
so it returns normally for every oracle outcome. -/
def slack_notify (env : Env) (w : World) (text : PyStr)
    (blocks : Option (List Block)) : Except PyExn Unit × List Call :=
  if env.SLACK_WEBHOOK_URL = [] then (.ok (), [])
  else
    let payloadBlocks : Option (List Block) :=
      match blocks with
      | some bs => if bs.isEmpty then none else some bs
      | none => none
    match w.slack with
    | .exn => (.ok (), [.slackPost text payloadBlocks])
    | .resp _ _ => (.ok (), [.slackPost text payloadBlocks])

/-! ## Text fields of an idea, and `build_slack_blocks` (app.py lines 28-107) -/

/-- `_strip_html` applied to a field value fetched from the payload: Python's
`if not text: return ""` maps any falsy value to `""`; a truthy non-string
makes `re.sub` raise `TypeError`. -/
def stripHtmlJ (v : JVal) : Except PyExn PyStr :=
  if truthy v = false then .ok []
  else
    match v with
    | .str s => .ok (strip_html s)
    | _ => .error .typeError

/-- `_shorten` applied to a value: Python's `if not s: return ""` maps any
falsy value to `""`; applying `len`/slicing/concatenation to a truthy
non-string is modelled as a `TypeError`. -/
def shortenJ (v : JVal) (limit : Nat) : Except PyExn PyStr :=
  if truthy v = false then .ok []
  else
    match v with
    | .str s => .ok (shorten s limit)
    | _ => .error .typeError

/-- `idea.get(k) or cf.get(k)`: the idea's own field if truthy, else the
custom-fields value (which raises `AttributeError` when `cf` is not a dict;
lazily, only when the first operand is falsy). -/
def ideaOrCf (ikvs : List (String × JVal)) (cf : JVal) (k : String) :
    Except PyExn JVal :=
  let v := jLookup ikvs k
  if truthy v then .ok v else jvGet cf k

/-- Values extracted by `build_slack_blocks` before assembling the blocks
(app.py lines 29-58). -/
structure IdeaFields where
  idea_name : JVal
  idea_url : JVal
  current : PyStr
  impact : PyStr
  request_txt : PyStr
  desc : PyStr
  customer : JVal

/-- Field extraction of `build_slack_blocks` (app.py lines 29-58): idea name
with fallback, the idea URL (platform-provided, or constructed from the base
URL plus reference/by-id path), the four markup-stripped content fields, and
the customer value. -/
def extractIdeaFields (env : Env) (idea : JVal) : Except PyExn IdeaFields :=
  match idea with
  | .obj ikvs => do
    let nameV := jLookup ikvs "name"
    let idea_name := if truthy nameV then nameV else .str "Unnamed idea".data
    let base_url := rstripSlash env.AHA_BASE_URL
    let u := jLookup ikvs "url"
    let idea_url : JVal :=
      if truthy u then u
      else if base_url ≠ [] then
        let rn := jLookup ikvs "reference_num"
        let ref := if truthy rn then rn else jLookup ikvs "reference"
        if truthy ref then
          .str (base_url ++ "/ideas/ideas/".data ++ pyStr ref)
        else
          let iid := jLookup ikvs "id"
          if truthy iid then .str (base_url ++ "/ideas/".data ++ pyStr iid)
          else u
      else u
    let cf0 := jLookupD ikvs "custom_fields" (.obj [])
    let cf := if truthy cf0 then cf0 else .obj []
    let curV ← ideaOrCf ikvs cf "current_behavior"
    let current ← stripHtmlJ curV
    let impV ← ideaOrCf ikvs cf "impact"
    let impact ← stripHtmlJ impV
    let reqV ← ideaOrCf ikvs cf "requested_behavior"
    let request_txt ← stripHtmlJ reqV
    let desc ← stripHtmlJ (jLookup ikvs "description")
    let custA ← ideaOrCf ikvs cf "customer_name"
    let custB ← if truthy custA then pure custA else jvGet cf "organization"
    let custC ← if truthy custB then pure custB else jvGet cf "organization_name"
    let customer := if truthy custC then custC else .str []
    pure ⟨idea_name, idea_url, current, impact, request_txt, desc, customer⟩
  | _ => .error .attributeError

/-- The inner `section(label, text)` helper of `build_slack_blocks` (lines
61-70, always called with `mark_missing=True`): an explicit "[Not provided]"
marker for empty/whitespace text, otherwise the truncated text. -/
def sectionBlock (label : PyStr) (text : PyStr) : Block :=
  if text = [] || pyStrip text = [] then
    .textSection ("*".data ++ label ++ ":*\n_[Not provided]_ ⚠️".data)
  else
    .textSection ("*".data ++ label ++ ":*\n".data ++ shorten text 2500)

/-- The Slack layout of `build_slack_blocks` (lines 72-105): header,
two-column field section, divider, one section per content field, divider,
critique section.  `critique` is the already-shortened critique text. -/
def blocksFromFields (f : IdeaFields) (critique : PyStr) : List Block :=
  [ .header ("⚠️ Needs review: ".data ++ pyStr f.idea_name),
    .fieldsSection
      (if truthy f.idea_url then
        "*Idea:*\n<".data ++ pyStr f.idea_url ++ "|Open in Aha!>".data
      else "*Idea:*\nNo URL available".data)
      ("*Customer:*\n".data ++
        pyStr (if truthy f.customer then f.customer else .str "—".data)),
    .divider,
    sectionBlock "Current behavior (What is the challenge?)".data f.current,
    sectionBlock "Impact (How this affects workflow/goals)".data f.impact,
    sectionBlock "Requested behavior (Improvement needed)".data f.request_txt,
    sectionBlock "Additional description".data f.desc,
    .divider,
    .textSection ("*🤖 AI Product Manager Review*\n".data ++ critique) ]

/-- `build_slack_blocks(idea, critique)` (app.py lines 28-107): extract the
fields, then assemble the fixed block layout.  `critique` is passed through
`_shorten(critique, 2800)` for the final section. -/
def build_slack_blocks (env : Env) (idea : JVal) (critique : JVal) :
    Except PyExn (List Block) := do
  let f ← extractIdeaFields env idea
  let c ← shortenJ critique 2800
  pure (blocksFromFields f c)

/-! ## `analyze_idea_quality` (app.py lines 148-253) -/

/-- Fields extracted by the analyzer before the OpenAI call (lines 157-162).
Only the extraction may raise (ill-typed payload values); the fields
themselves flow only into the prompt text, which no claim inspects. -/
structure AnalyzeFields where
  name : JVal
  current : PyStr
  impact : PyStr
  requested : PyStr
  description : PyStr

/-- Field extraction of `analyze_idea_quality` (app.py lines 157-162); note
the extra `or ""` compared with `build_slack_blocks`. -/
def extractAnalyzeFields (idea : JVal) : Except PyExn AnalyzeFields :=
  match idea with
  | .obj ikvs => do
    let cf0 := jLookupD ikvs "custom_fields" (.obj [])
    let cf := if truthy cf0 then cf0 else .obj []
    let nameV := jLookup ikvs "name"
    let name := if truthy nameV then nameV else .str "Unnamed idea".data
    let curV ← ideaOrCf ikvs cf "current_behavior"
    let current ← stripHtmlJ (if truthy curV then curV else .str [])
    let impV ← ideaOrCf ikvs cf "impact"
    let impact ← stripHtmlJ (if truthy impV then impV else .str [])
    let reqV ← ideaOrCf ikvs cf "requested_behavior"
    let requested ← stripHtmlJ (if truthy reqV then reqV else .str [])
    let dV := jLookup ikvs "description"
    let description ← stripHtmlJ (if truthy dV then dV else .str [])
    pure ⟨name, current, impact, requested, description⟩
  | _ => .error .attributeError

/-- `analyze_idea_quality(idea)` (app.py lines 148-253).  Returns `ok none`
when no critique is produced: missing API key, transport exception, non-200
status, unparseable/mis-shaped response content, or a falsy
`needs_improvement` flag — every failure inside the `try` is caught and
mapped to `None`.  Only the field extraction (lines 157-162, outside the
`try`) can raise.  (The unused `fields_provided` length heuristic of lines
165-169 and the prompt text are not modelled: they only feed the prompt.) -/
def analyze_idea_quality (env : Env) (w : World) (idea : JVal) :
    Except PyExn (Option JVal) × List Call :=
  if env.OPENAI_API_KEY = [] then (.ok none, [])
  else
    match extractAnalyzeFields idea with
    | .error e => (.error e, [])
    | .ok _fields =>
      match w.openai with
      | .exn => (.ok none, [.openaiCall])
      | .resp status content =>
        if status ≠ 200 then (.ok none, [.openaiCall])
        else
          match content with
          | none => (.ok none, [.openaiCall])
          | some analysis =>
            match analysis with
            | .obj akvs =>
              if truthy (jLookup akvs "needs_improvement") then
                (.ok (some (.obj akvs)), [.openaiCall])
              else (.ok none, [.openaiCall])
            | _ => (.ok none, [.openaiCall])

/-! ## `aha_post_private_comment` (app.py lines 259-264) -/

/-- The single request payload shape used for the comment POST:
`{"comment": {"body": body, "visibility": "private"}}`. -/
def commentPayload (body : PyStr) : JVal :=
  .obj [("comment", .obj [("body", .str body),
                          ("visibility", .str "private".data)])]

/-- `aha_post_private_comment(idea_id, body)`: one POST of the single payload
shape; on `resp.ok` (status < 400) returns `resp.json()` (raising
`JSONDecodeError` if the body is unparseable), otherwise logs and returns
`{}`.  A transport exception propagates to the caller. -/
def aha_post_private_comment (env : Env) (w : World) (idea_id body : PyStr) :
    Except PyExn JVal × List Call :=
  let path := rstripSlash env.AHA_BASE_URL ++ "/api/v1/ideas/".data ++
    idea_id ++ "/comments".data
  let call := Call.ahaComment path (commentPayload body)
  match w.aha with
  | .exn => (.error .requestError, [call])
  | .resp status rbody =>
    if status < 400 then
      match rbody with
      | some j => (.ok j, [call])
      | none => (.error .jsonError, [call])
    else (.ok (.obj []), [call])

/-! ## The webhook endpoint `aha_webhook` (app.py lines 270-338), POST path -/

/-- `event_type in ("create", "created")` (Python `in` compares by equality,
so any non-string value is simply not a member). -/
def isCreationEvent : JVal → Bool
  | .str s => s == "create".data || s == "created".data
  | _ => false

/-- `str(idea.get("id") or idea.get("reference_num") or idea.get("reference"))`
(app.py line 296).  Note the `str(...)` wrapping: when all three keys are
missing/falsy this yields the string `"None"`, not an empty string. -/
def resolveIdeaId (ikvs : List (String × JVal)) : PyStr :=
  pyStr (if truthy (jLookup ikvs "id") then jLookup ikvs "id"
         else if truthy (jLookup ikvs "reference_num") then
           jLookup ikvs "reference_num"
         else jLookup ikvs "reference")

/-- Python iteration over a value, as used by
`"\n".join(f"• {issue}" for issue in issues)`: lists yield their elements,
strings their characters, dicts their keys; other values raise `TypeError`. -/
def iterForJoin : JVal → Except PyExn (List JVal)
  | .arr xs => .ok xs
  | .str s => .ok (s.map (fun c => JVal.str [c]))
  | .obj kvs => .ok (kvs.map (fun kv => JVal.str kv.fst.data))
  | _ => .error .typeError

/-- The draft comment body (app.py lines 318-321): the draft prefix plus the
critique, and, when `issues` is truthy, a bullet list of the issues. -/
def mkDraftBody (critique issues : JVal) : Except PyExn PyStr :=
  let draft := "[DRAFT – Tal review required]\n\n".data ++ pyStr critique
  if truthy issues then
    match iterForJoin issues with
    | .ok xs =>
      .ok (draft ++ "\n\n**Issues identified:**\n".data ++
        List.intercalate "\n".data (xs.map (fun i => "• ".data ++ pyStr i)))
    | .error e => .error e
  else .ok draft

/-- The JSON body of the `"no_action_needed"` success response
(app.py lines 306-311). -/
def noActionJson (idea_id : PyStr) : JVal :=
  .obj [("status", .str "ok".data), ("idea_id", .str idea_id),
        ("action", .str "no_action_needed".data),
        ("message", .str "Idea is well-described".data)]

/-- The JSON body of the `"notified"` success response (lines 333-338). -/
def notifiedJson (idea_id : PyStr) (issues : JVal) : JVal :=
  .obj [("status", .str "ok".data), ("idea_id", .str idea_id),
        ("action", .str "notified".data), ("issues", issues)]

/-- The JSON body of the `"skipped"` response (line 285). -/
def skippedJson (event_type : JVal) : JVal :=
  .obj [("status", .str "skipped".data),
        ("reason", .str ("ignoring event type: ".data ++ pyStr event_type))]

/-- The Slack alert text used in the webhook's `except` branch (line 331);
the exception's rendering is abbreviated, no claim inspects it. -/
def failAlertText (idea_id : PyStr) : PyStr :=
  "⚠️ Failed to add draft private note for idea ".data ++ idea_id

/-- The `try` block of the webhook (app.py lines 323-331): post the comment,
build the blocks, notify Slack; on any exception inside, send a best-effort
Slack alert instead.  Either way the handler falls through to the 200
`"notified"` JSON response (lines 333-338). -/
def notifyPhase (env : Env) (w : World) (ikvs : List (String × JVal))
    (idea_id : PyStr) (critique issues : JVal) (body : PyStr) :
    Except PyExn HttpResp × List Call :=
  let respJson := notifiedJson idea_id issues
  let (cres, ccalls) := aha_post_private_comment env w idea_id body
  match cres with
  | .error _ =>
    let (_, scalls) := slack_notify env w (failAlertText idea_id) none
    (.ok (.jsonResp respJson), ccalls ++ scalls)
  | .ok _ =>
    match build_slack_blocks env (.obj ikvs) critique with
    | .error _ =>
      let (_, scalls) := slack_notify env w (failAlertText idea_id) none
      (.ok (.jsonResp respJson), ccalls ++ scalls)
    | .ok blocks =>
      let nameV := jLookup ikvs "name"
      let text := "⚠️ Idea needs review: ".data ++
        pyStr (if truthy nameV then nameV else .str "Unnamed idea".data)
      let (_, scalls) := slack_notify env w text (some blocks)
      (.ok (.jsonResp respJson), ccalls ++ scalls)

/-- The webhook after the analyzer returned (app.py lines 304-338): when no
analysis or a falsy `needs_improvement` flag, answer `"no_action_needed"`
with no further calls; otherwise format the draft comment (lines 314-321,
outside the `try`: a non-iterable truthy `issues_found` raises here) and run
the notify phase. -/
def afterAnalysis (env : Env) (w : World) (ikvs : List (String × JVal))
    (idea_id : PyStr) (analysis : Option JVal) :
    Except PyExn HttpResp × List Call :=
  match analysis with
  | none => (.ok (.jsonResp (noActionJson idea_id)), [])
  | some a =>
    if truthy a = false then (.ok (.jsonResp (noActionJson idea_id)), [])
    else
      match a with
      | .obj akvs =>
        if truthy (jLookup akvs "needs_improvement") = false then
          (.ok (.jsonResp (noActionJson idea_id)), [])
        else
          match mkDraftBody (jLookupD akvs "critique" (.str []))
              (jLookupD akvs "issues_found" (.arr [])) with
          | .error e => (.error e, [])
          | .ok body =>
            notifyPhase env w ikvs idea_id (jLookupD akvs "critique" (.str []))
              (jLookupD akvs "issues_found" (.arr [])) body
      | _ => (.error .attributeError, [])

/-- The POST handler body of `aha_webhook` (app.py lines 276-338), applied to
the already-defaulted parsed JSON body `data`.  The debug prints at lines
279 and 291-294 call `.keys()`/`.get` and therefore raise `AttributeError`
when `data` (resp. the idea payload) is not a dict. -/
def webhookPost (env : Env) (w : World) (data : JVal) :
    Except PyExn HttpResp × List Call :=
  match data with
  | .obj kvs =>
    if truthy (jLookup kvs "event") && !isCreationEvent (jLookup kvs "event") then
      (.ok (.jsonResp (skippedJson (jLookup kvs "event"))), [])
    else
      match (if truthy (jLookup kvs "idea") then jLookup kvs "idea"
             else .obj kvs) with
      | .obj ikvs =>
        if resolveIdeaId ikvs = [] then
          (.ok (.textResp "no idea id".data 400), [])
        else
          match analyze_idea_quality env w (.obj ikvs) with
          | (.error e, acalls) => (.error e, acalls)
          | (.ok analysis, acalls) =>
            ((afterAnalysis env w ikvs (resolveIdeaId ikvs) analysis).1,
             acalls ++ (afterAnalysis env w ikvs (resolveIdeaId ikvs) analysis).2)
      | _ => (.error .attributeError, [])
  | _ => (.error .attributeError, [])

/-- `aha_webhook` on a POST request (app.py lines 270-338).  `data0` is the
result of `request.get_json(force=True, silent=True)`: `none` when the body
is not valid JSON (silent mode yields `None`), otherwise the parsed value;
`or {}` replaces any falsy result by an empty dict.  (The GET/HEAD
health-check branch of lines 273-274 is not modelled; all claims concern
POST requests.) -/
def aha_webhook (env : Env) (w : World) (data0 : Option JVal) :
    Except PyExn HttpResp × List Call :=
  let data : JVal :=
    match data0 with
    | none => .obj []
    | some v => if truthy v then v else .obj []
  webhookPost env w data

/-! ## Properties -/

/-- The text remaining after a successful tag match is a strictly shorter
sublist of the text after the `<`. -/
theorem matchTag_eq_some {l l2 : PyStr} (h : matchTag l = some l2) :
    List.Sublist l2 l ∧ l2.length < l.length := by
  unfold matchTag at h
  split at h
  · exact absurd h (by simp)
  · split at h
    · exact absurd h (by simp)
    · rename_i x rest heq
      injection h with h
      have hsub : List.Sublist (x :: rest) l := by
        rw [← heq]; exact List.dropWhile_sublist notGt
      rw [← h]
      refine ⟨(List.sublist_cons_self x rest).trans hsub, ?_⟩
      have := hsub.length_le
      simp at this
      omega

/-- If `matchTag` fails then either the text starts with `>` (or is empty),
or it contains no `>` at all. -/
theorem matchTag_eq_none {l : PyStr} (h : matchTag l = none) :
    l.takeWhile notGt = [] ∨ l.dropWhile notGt = [] := by
  unfold matchTag at h
  split at h
  · left; assumption
  · split at h
    · right; assumption
    · exact absurd h (by simp)

/-- The result of `stripHtmlFuel` does not depend on the fuel, as long as the
fuel covers the length of the text. -/
theorem stripHtmlFuel_congr :
    ∀ (f1 f2 : Nat) (l : PyStr), l.length ≤ f1 → l.length ≤ f2 →
      stripHtmlFuel f1 l = stripHtmlFuel f2 l := by
  intro f1
  induction f1 with
  | zero =>
    intro f2 l h1 _
    have hl : l = [] := List.eq_nil_of_length_eq_zero (Nat.le_zero.mp h1)
    subst hl
    cases f2 <;> rfl
  | succ f ih =>
    intro f2 l h1 h2
    cases l with
    | nil => cases f2 <;> rfl
    | cons c rest =>
      cases f2 with
      | zero => simp at h2
      | succ g =>
        simp only [List.length_cons, Nat.add_le_add_iff_right] at h1 h2
        simp only [stripHtmlFuel]
        by_cases hc : c = '<'
        · simp only [hc, if_true]
          cases hm : matchTag rest with
          | none => rw [ih g rest h1 h2]
          | some rest2 =>
            have hlt := (matchTag_eq_some hm).2
            exact ih g rest2 (by omega) (by omega)
        · simp only [hc, if_false]
          rw [ih g rest h1 h2]

/-- Unfolding equation of `strip_html` on a nonempty text. -/
theorem strip_html_cons (c : Char) (rest : PyStr) :
    strip_html (c :: rest) =
      if c = '<' then
        match matchTag rest with
        | some rest2 => strip_html rest2
        | none => c :: strip_html rest
      else c :: strip_html rest := by
  show stripHtmlFuel (rest.length + 1) (c :: rest) = _
  simp only [stripHtmlFuel]
  by_cases hc : c = '<'
  · simp only [hc, if_true]
    cases hm : matchTag rest with
    | none => rfl
    | some rest2 =>
      have hlt := (matchTag_eq_some hm).2
      exact stripHtmlFuel_congr rest.length rest2.length rest2 (by omega) (le_refl _)
  · simp only [hc, if_false]
    rfl

example : strip_html "a<b>c".data = "ac".data := by decide
example : strip_html "<a<b>c>".data = "c>".data := by decide
example : strip_html "<>x".data = "<>x".data := by decide

example : shorten "abcd".data 2 = "ab…".data := by decide
example : shorten "ab".data 2 = "ab".data := by decide

/-! ## Idempotence of `_strip_html` -/

/-- The stripped text is a sublist of the original text. -/
theorem strip_html_sublist (l : PyStr) : List.Sublist (strip_html l) l := by
  suffices h : ∀ (n : Nat) (l : PyStr), l.length ≤ n → List.Sublist (strip_html l) l by
    exact h l.length l (le_refl _)
  intro n
  induction n with
  | zero =>
    intro l h
    have hl : l = [] := List.eq_nil_of_length_eq_zero (Nat.le_zero.mp h)
    subst hl
    simp [strip_html, stripHtmlFuel]
  | succ m ih =>
    intro l h
    cases l with
    | nil => simp [strip_html, stripHtmlFuel]
    | cons c rest =>
      simp only [List.length_cons, Nat.add_le_add_iff_right] at h
      rw [strip_html_cons]
      by_cases hc : c = '<'
      · rw [if_pos hc]
        cases hm : matchTag rest with
        | none => exact (ih rest h).cons₂ c
        | some rest2 =>
          obtain ⟨hsub, hlen⟩ := matchTag_eq_some hm
          exact ((ih rest2 (by omega)).trans hsub).trans
            (List.sublist_cons_self c rest)
      · rw [if_neg hc]
        exact (ih rest h).cons₂ c

/-- `matchTag` fails on any text containing no `>` at all. -/
theorem matchTag_of_all_notGt {l : PyStr} (h : ∀ x ∈ l, notGt x = true) :
    matchTag l = none := by
  unfold matchTag
  split
  · rfl
  · have hd : l.dropWhile notGt = [] := List.dropWhile_eq_nil_iff.mpr h
    rw [hd]

/-- On an inert text the stripper is the identity. -/
theorem strip_html_of_noTag {l : PyStr} (h : noTag l = true) :
    strip_html l = l := by
  suffices hn : ∀ (n : Nat) (l : PyStr), l.length ≤ n → noTag l = true →
      strip_html l = l by
    exact hn l.length l (le_refl _) h
  intro n
  induction n with
  | zero =>
    intro l hlen _
    have hl : l = [] := List.eq_nil_of_length_eq_zero (Nat.le_zero.mp hlen)
    subst hl
    rfl
  | succ m ih =>
    intro l hlen hnt
    cases l with
    | nil => rfl
    | cons c rest =>
      simp only [List.length_cons, Nat.add_le_add_iff_right] at hlen
      simp only [noTag, Bool.and_eq_true] at hnt
      rw [strip_html_cons]
      by_cases hc : c = '<'
      · rw [if_pos hc]
        have hmt : matchTag rest = none := by
          have := hnt.1
          rw [if_pos hc, Option.isNone_iff_eq_none] at this
          exact this
        rw [hmt]
        rw [ih rest hlen hnt.2]
      · rw [if_neg hc]
        rw [ih rest hlen hnt.2]

/-- The stripped text is inert: stripping cannot create a new match. -/
theorem noTag_strip_html (l : PyStr) : noTag (strip_html l) = true := by
  suffices hn : ∀ (n : Nat) (l : PyStr), l.length ≤ n →
      noTag (strip_html l) = true by
    exact hn l.length l (le_refl _)
  intro n
  induction n with
  | zero =>
    intro l hlen
    have hl : l = [] := List.eq_nil_of_length_eq_zero (Nat.le_zero.mp hlen)
    subst hl
    rfl
  | succ m ih =>
    intro l hlen
    cases l with
    | nil => rfl
    | cons c rest =>
      simp only [List.length_cons, Nat.add_le_add_iff_right] at hlen
      rw [strip_html_cons]
      by_cases hc : c = '<'
      · rw [if_pos hc]
        cases hm : matchTag rest with
        | some rest2 =>
          obtain ⟨_, hlt⟩ := matchTag_eq_some hm
          exact ih rest2 (by omega)
        | none =>
          show noTag (c :: strip_html rest) = true
          simp only [noTag, Bool.and_eq_true]
          refine ⟨?_, ih rest hlen⟩
          rw [if_pos hc]
          rw [Option.isNone_iff_eq_none]
          rcases matchTag_eq_none hm with htw | hdw
          · cases rest with
            | nil => rfl
            | cons r rs =>
              by_cases hr : notGt r = true
              · simp [List.takeWhile_cons, hr] at htw
              · have hrgt : r = '>' := by
                  unfold notGt at hr
                  by_contra hne
                  simp [hne] at hr
                have hrneq : r ≠ '<' := by rw [hrgt]; decide
                rw [strip_html_cons]
                simp only [hrneq, if_false]
                unfold matchTag
                have : notGt r = false := by rw [hrgt]; rfl
                simp [List.takeWhile_cons, this]
          · have hall : ∀ x ∈ rest, notGt x = true :=
              List.dropWhile_eq_nil_iff.mp hdw
            exact matchTag_of_all_notGt
              (fun x hx => hall x ((strip_html_sublist rest).subset hx))
      · rw [if_neg hc]
        simp only [noTag, Bool.and_eq_true]
        exact ⟨by rw [if_neg hc], ih rest hlen⟩


/-! ## Shared lemmas about the webhook pipeline -/

/-- Defaulting of the parsed POST body: for a dict payload, `or {}` is the
identity (an empty dict is replaced by an equal empty dict). -/
theorem aha_webhook_obj (env : Env) (w : World) (kvs : List (String × JVal)) :
    aha_webhook env w (some (.obj kvs)) = webhookPost env w (.obj kvs) := by
  cases kvs with
  | nil => rfl
  | cons a l => rfl

/-- The analyzer performs at most one outbound call, and only to OpenAI. -/
theorem analyze_calls (env : Env) (w : World) (idea : JVal) :
    (analyze_idea_quality env w idea).2 = [] ∨
    (analyze_idea_quality env w idea).2 = [.openaiCall] := by
  unfold analyze_idea_quality
  repeat' split
  all_goals first | exact Or.inl rfl | exact Or.inr rfl

/-- If the analyzer's field extraction succeeds, the analyzer returns
normally, and a produced analysis is exactly a dict from a 200 OpenAI
response with a truthy `needs_improvement` flag. -/
theorem analyze_result_ok (env : Env) (w : World) (idea : JVal)
    (hx : ∃ f, extractAnalyzeFields idea = .ok f) :
    ∃ a, (analyze_idea_quality env w idea).1 = .ok a ∧
      (a = none ∨ ∃ akvs, a = some (.obj akvs) ∧
        truthy (jLookup akvs "needs_improvement") = true ∧
        w.openai = .resp 200 (some (.obj akvs))) := by
  obtain ⟨f, hf⟩ := hx
  unfold analyze_idea_quality
  split
  · exact ⟨none, rfl, Or.inl rfl⟩
  · split
    · rename_i e heq
      rw [hf] at heq
      exact absurd heq (by simp)
    · split
      · rename_i ho
        exact ⟨none, rfl, Or.inl rfl⟩
      · rename_i status content ho
        split
        · exact ⟨none, rfl, Or.inl rfl⟩
        · rename_i hst
          have hst' : status = 200 := by omega
          split
          · exact ⟨none, rfl, Or.inl rfl⟩
          · rename_i analysis hcont
            split
            · rename_i akvs
              split
              · rename_i hfl
                refine ⟨some (.obj akvs), rfl, Or.inr ⟨akvs, rfl, hfl, ?_⟩⟩
                rw [ho, hst']
              · exact ⟨none, rfl, Or.inl rfl⟩
            · exact ⟨none, rfl, Or.inl rfl⟩

/-- The notify phase answers the 200 `"notified"` JSON response for every
oracle outcome of the comment POST, the block build, and the Slack POST. -/
theorem notifyPhase_ok (env : Env) (w : World) (ikvs : List (String × JVal))
    (idea_id : PyStr) (critique issues : JVal) (body : PyStr) :
    ∃ calls, notifyPhase env w ikvs idea_id critique issues body =
      (.ok (.jsonResp (notifiedJson idea_id issues)), calls) := by
  unfold notifyPhase
  repeat' split
  all_goals exact ⟨_, rfl⟩

/-- `mkDraftBody` succeeds whenever a truthy `issues` value is iterable. -/
theorem mkDraftBody_ok (critique issues : JVal)
    (h : truthy issues = true → ∃ xs, iterForJoin issues = .ok xs) :
    ∃ b, mkDraftBody critique issues = .ok b := by
  unfold mkDraftBody
  by_cases ht : truthy issues = true
  · rw [if_pos ht]
    obtain ⟨xs, hxs⟩ := h ht
    rw [hxs]
    exact ⟨_, rfl⟩
  · rw [if_neg ht]
    exact ⟨_, rfl⟩

/-- Once the skip check passes, the idea payload is a dict, and the resolved
id is nonempty, the webhook's result is the analyzer's outcome composed with
`afterAnalysis`, with the call traces concatenated. -/
theorem webhook_resolved (env : Env) (w : World)
    (kvs ikvs : List (String × JVal)) (analysis : Option JVal)
    (hev : truthy (jLookup kvs "event") = false ∨
      isCreationEvent (jLookup kvs "event") = true)
    (hidea : (if truthy (jLookup kvs "idea") then jLookup kvs "idea"
              else .obj kvs) = .obj ikvs)
    (hid : resolveIdeaId ikvs ≠ [])
    (hana : (analyze_idea_quality env w (.obj ikvs)).1 = .ok analysis) :
    aha_webhook env w (some (.obj kvs)) =
      ((afterAnalysis env w ikvs (resolveIdeaId ikvs) analysis).1,
       (analyze_idea_quality env w (.obj ikvs)).2 ++
         (afterAnalysis env w ikvs (resolveIdeaId ikvs) analysis).2) := by
  rw [aha_webhook_obj]
  unfold webhookPost
  split
  · rename_i kvs' hkvs
    injection hkvs with hkvs
    subst hkvs
    split
    · rename_i hcond
      exfalso
      rcases hev with h | h
      · rw [h] at hcond; exact absurd hcond (by simp)
      · rw [h] at hcond; exact absurd hcond (by simp)
    · split
      · rename_i ikvs' hI
        rw [hidea] at hI
        injection hI with hI
        subst hI
        split
        · rename_i h400
          exact absurd h400 hid
        · split
          · rename_i e acalls hpair
            rw [hpair] at hana
            exact absurd hana (by simp)
          · rename_i analysis' acalls hpair
            rw [hpair] at hana
            simp only at hana
            injection hana with hana
            subst hana
            rw [hpair]
      · rename_i hne
        exact absurd hidea (hne ikvs)
  · rename_i hne
    exact absurd rfl (hne kvs)

/-- In the `no_action_needed` case `afterAnalysis` answers immediately. -/
theorem afterAnalysis_none (env : Env) (w : World)
    (ikvs : List (String × JVal)) (idea_id : PyStr) :
    afterAnalysis env w ikvs idea_id none =
      (.ok (.jsonResp (noActionJson idea_id)), []) := rfl

/-! ## The claims -/

/-- Claim C1 (code-bug evidence).  The claim: a POST payload with no
resolvable idea identifier yields a 400-class response and zero outbound
calls.  The code: line 296 wraps the id chain in `str(...)`, so a payload
with no id at all resolves to the nonempty string `"None"`, the `if not
idea_id` check at line 298 can never fire for it, and the handler proceeds:
on the empty-dict payload it answers 200 `"no_action_needed"` and performs
an outbound generative-analysis call. -/
theorem c1_missing_id_not_rejected :
    resolveIdeaId [] = "None".data ∧
    aha_webhook ⟨[], [], "key".data⟩ ⟨.exn, .exn, .exn⟩ (some (.obj [])) =
      (.ok (.jsonResp (noActionJson "None".data)), [.openaiCall]) ∧
    respStatus (.jsonResp (noActionJson "None".data)) = 200 ∧
    jField (noActionJson "None".data) "status" = .str "ok".data :=
  ⟨rfl, rfl, rfl, rfl⟩

/-- Claim C2, counterexample.  The publisher attempts only one request-body
shape (a 422 rejection triggers no second attempt: exactly one outbound call
is ever made), and a transport exception during the POST propagates past the
publisher to its caller, contradicting both the alternate-shape retry and
the never-raise clauses of the claim. -/
theorem c2_counterexample :
    (aha_post_private_comment ⟨[], [], []⟩ ⟨.exn, .exn, .exn⟩
      "42".data "hi".data).1 = .error .requestError ∧
    (aha_post_private_comment ⟨[], [], []⟩
      ⟨.exn, .resp 422 (some (.obj [])), .exn⟩ "42".data "hi".data).2.length = 1 ∧
    (aha_post_private_comment ⟨[], [], []⟩
      ⟨.exn, .resp 422 (some (.obj [])), .exn⟩ "42".data "hi".data).1 =
      .ok (.obj []) :=
  ⟨rfl, rfl, rfl⟩

/-- Claim C2, amended.  The comment publisher performs exactly one POST of
the single fixed payload shape `{"comment": {"body": .., "visibility":
"private"}}`; a response with status < 400 yields its parsed body, a
response with status ≥ 400 yields an empty dict (after logging), and a
transport exception propagates to the caller (where the webhook's
`try/except` catches it). -/
theorem c2_single_shape_publisher (env : Env) (w : World)
    (idea_id body : PyStr) :
    (aha_post_private_comment env w idea_id body).2 =
      [.ahaComment (rstripSlash env.AHA_BASE_URL ++ "/api/v1/ideas/".data ++
        idea_id ++ "/comments".data) (commentPayload body)] ∧
    (∀ st j, w.aha = .resp st (some j) → st < 400 →
      (aha_post_private_comment env w idea_id body).1 = .ok j) ∧
    (∀ st b, w.aha = .resp st b → 400 ≤ st →
      (aha_post_private_comment env w idea_id body).1 = .ok (.obj [])) ∧
    (w.aha = .exn →
      (aha_post_private_comment env w idea_id body).1 = .error .requestError) := by
  refine ⟨?_, ?_, ?_, ?_⟩
  · cases hw : w.aha with
    | exn => simp [aha_post_private_comment, hw]
    | resp st b =>
      by_cases h : st < 400
      · cases b <;> simp [aha_post_private_comment, hw, h]
      · simp [aha_post_private_comment, hw, h]
  · intro st j hw hlt
    simp [aha_post_private_comment, hw, hlt]
  · intro st b hw hge
    simp [aha_post_private_comment, hw, Nat.not_lt.mpr hge]
  · intro hw
    simp [aha_post_private_comment, hw]

/-- Claim C2 witness: a 200 response with a parseable body is returned
as its parsed body. -/
theorem c2_single_shape_publisher_witness :
    (aha_post_private_comment ⟨[], [], []⟩
      ⟨.exn, .resp 200 (some (.bool true)), .exn⟩ "7".data "b".data).1 =
      .ok (.bool true) :=
  (c2_single_shape_publisher ⟨[], [], []⟩
    ⟨.exn, .resp 200 (some (.bool true)), .exn⟩ "7".data "b".data).2.1
    200 (.bool true) rfl (by omega)

/-- Claim C3.  For a POST payload whose event type is absent/falsy or a
creation event, whose idea payload is a dict with a nonempty resolved id,
when the analyzer produces no result the handler answers the 200 JSON
`{"status": "ok", "action": "no_action_needed", ...}` and performs zero
comment and zero Slack calls. -/
theorem c3_no_result_no_action (env : Env) (w : World)
    (kvs ikvs : List (String × JVal))
    (hev : truthy (jLookup kvs "event") = false ∨
      isCreationEvent (jLookup kvs "event") = true)
    (hidea : (if truthy (jLookup kvs "idea") then jLookup kvs "idea"
              else .obj kvs) = .obj ikvs)
    (hid : resolveIdeaId ikvs ≠ [])
    (hana : (analyze_idea_quality env w (.obj ikvs)).1 = .ok none) :
    ∃ calls, aha_webhook env w (some (.obj kvs)) =
        (.ok (.jsonResp (noActionJson (resolveIdeaId ikvs))), calls) ∧
      jField (noActionJson (resolveIdeaId ikvs)) "status" = .str "ok".data ∧
      jField (noActionJson (resolveIdeaId ikvs)) "action" =
        .str "no_action_needed".data ∧
      calls.countP isCommentCall = 0 ∧
      calls.countP isSlackCall = 0 := by
  have hw := webhook_resolved env w kvs ikvs none hev hidea hid hana
  rw [afterAnalysis_none] at hw
  refine ⟨(analyze_idea_quality env w (.obj ikvs)).2, ?_, rfl, rfl, ?_, ?_⟩
  · rw [hw]
    simp
  · rcases analyze_calls env w (.obj ikvs) with h | h <;> rw [h] <;> rfl
  · rcases analyze_calls env w (.obj ikvs) with h | h <;> rw [h] <;> rfl

/-- Claim C3 witness: a payload with an id, no API key configured (the
analyzer returns no result), answers `no_action_needed` with no calls. -/
theorem c3_no_result_no_action_witness :
    ∃ calls, aha_webhook ⟨[], [], []⟩ ⟨.exn, .exn, .exn⟩
        (some (.obj [("id", .str "42".data)])) =
        (.ok (.jsonResp (noActionJson
          (resolveIdeaId [("id", .str "42".data)]))), calls) ∧
      jField (noActionJson (resolveIdeaId [("id", .str "42".data)])) "status" =
        .str "ok".data ∧
      jField (noActionJson (resolveIdeaId [("id", .str "42".data)])) "action" =
        .str "no_action_needed".data ∧
      calls.countP isCommentCall = 0 ∧
      calls.countP isSlackCall = 0 :=
  c3_no_result_no_action ⟨[], [], []⟩ ⟨.exn, .exn, .exn⟩
    [("id", .str "42".data)] [("id", .str "42".data)]
    (Or.inl rfl) rfl (by decide) rfl

/-- Claim C4, counterexample.  A payload whose id resolves to `"1"`, with a
successful 200 generative response whose `issues_found` is the non-iterable
number 5, makes the handler raise an uncaught `TypeError` (a 500 server
error, not a 200 success), although the id was resolved and neither the
comment nor the chat call failed: the claim's "always a 200 success once an
identifier has been resolved" is false as stated. -/
theorem c4_counterexample :
    resolveIdeaId [("id", .str "1".data)] = "1".data ∧
    (aha_webhook ⟨[], [], "k".data⟩
      ⟨.resp 200 (some (.obj [("needs_improvement", .bool true),
                              ("issues_found", .num 5)])), .exn, .exn⟩
      (some (.obj [("id", .str "1".data)]))).1 = .error .typeError :=
  ⟨rfl, rfl⟩

/-- Claim C4, amended.  Once the event filter passes, the idea payload is a
dict with a nonempty resolved id, the analyzer's field extraction succeeds
(string-typed text fields), and any produced analysis has an absent, falsy,
or iterable `issues_found`, the handler answers a 200 JSON response for
every outcome of the comment, chat, and generative calls — downstream
failures are never surfaced as an HTTP error. -/
theorem c4_resolved_always_200 (env : Env) (w : World)
    (kvs ikvs : List (String × JVal))
    (hev : truthy (jLookup kvs "event") = false ∨
      isCreationEvent (jLookup kvs "event") = true)
    (hidea : (if truthy (jLookup kvs "idea") then jLookup kvs "idea"
              else .obj kvs) = .obj ikvs)
    (hid : resolveIdeaId ikvs ≠ [])
    (hx : ∃ f, extractAnalyzeFields (.obj ikvs) = .ok f)
    (hbenign : ∀ akvs, w.openai = .resp 200 (some (.obj akvs)) →
        truthy (jLookupD akvs "issues_found" (.arr [])) = true →
        ∃ xs, iterForJoin (jLookupD akvs "issues_found" (.arr [])) = .ok xs) :
    ∃ b calls, aha_webhook env w (some (.obj kvs)) =
        (.ok (.jsonResp b), calls) ∧ respStatus (.jsonResp b) = 200 := by
  obtain ⟨a, hana, hshape⟩ := analyze_result_ok env w (.obj ikvs) hx
  have hw := webhook_resolved env w kvs ikvs a hev hidea hid hana
  rcases hshape with h | ⟨akvs, h, hflag, ho⟩
  · subst h
    rw [afterAnalysis_none] at hw
    exact ⟨_, _, by rw [hw], rfl⟩
  · subst h
    have htr : truthy (JVal.obj akvs) = true := by
      cases akvs with
      | nil => simp [jLookup, List.lookup, truthy] at hflag
      | cons p l => rfl
    obtain ⟨b0, hb⟩ := mkDraftBody_ok (jLookupD akvs "critique" (.str []))
      (jLookupD akvs "issues_found" (.arr [])) (fun ht => hbenign akvs ho ht)
    obtain ⟨scalls, hnp⟩ := notifyPhase_ok env w ikvs (resolveIdeaId ikvs)
      (jLookupD akvs "critique" (.str []))
      (jLookupD akvs "issues_found" (.arr [])) b0
    have hA : afterAnalysis env w ikvs (resolveIdeaId ikvs)
        (some (.obj akvs)) =
        (.ok (.jsonResp (notifiedJson (resolveIdeaId ikvs)
          (jLookupD akvs "issues_found" (.arr [])))), scalls) := by
      simp only [afterAnalysis, htr, hflag]
      simp only [Bool.true_eq_false, if_false]
      rw [hb]
      exact hnp
    rw [hA] at hw
    exact ⟨_, _, by rw [hw], rfl⟩

/-- Claim C4 witness: with a resolvable id and a generative transport
failure, the handler still answers a 200 JSON response. -/
theorem c4_resolved_always_200_witness :
    ∃ b calls, aha_webhook ⟨[], [], "k".data⟩ ⟨.exn, .exn, .exn⟩
        (some (.obj [("id", .str "5".data)])) =
        (.ok (.jsonResp b), calls) ∧ respStatus (.jsonResp b) = 200 :=
  c4_resolved_always_200 ⟨[], [], "k".data⟩ ⟨.exn, .exn, .exn⟩
    [("id", .str "5".data)] [("id", .str "5".data)]
    (Or.inl rfl) rfl (by decide) ⟨_, rfl⟩
    (fun _ h _ => absurd h (by simp))

/-- Claim C5, counterexample.  The analyzer can raise: the field extraction
of lines 157-162 runs before the `try` block, so with an API key configured
and a payload whose `custom_fields` is the string `"x"` (a non-dict),
`cf.get("current_behavior")` raises an uncaught `AttributeError` instead of
returning `None` — "never raises an uncaught exception" is false as
stated. -/
theorem c5_counterexample :
    (analyze_idea_quality ⟨[], [], "k".data⟩ ⟨.exn, .exn, .exn⟩
      (.obj [("custom_fields", .str "x".data)])).1 =
      .error .attributeError :=
  rfl

/-- Claim C5, amended.  Provided the idea's text fields extract cleanly
(string-typed fields; the extraction of lines 157-162 sits outside the
`try`), the analyzer never raises: it returns normally for every oracle
outcome, and returns `None` (no critique) whenever the API key is missing,
the call raises a transport exception (e.g. a timeout), the response status
is not 200, or the response content cannot be parsed as the expected
JSON. -/
theorem c5_analyzer_degrades (env : Env) (w : World) (idea : JVal)
    (hx : ∃ f, extractAnalyzeFields idea = .ok f) :
    (∃ r, (analyze_idea_quality env w idea).1 = .ok r) ∧
    ((env.OPENAI_API_KEY = [] ∨ w.openai = .exn ∨
      (∃ st c, w.openai = .resp st c ∧ st ≠ 200) ∨
      (∃ st, w.openai = .resp st none)) →
      (analyze_idea_quality env w idea).1 = .ok none) := by
  obtain ⟨f, hf⟩ := hx
  constructor
  · obtain ⟨a, ha, _⟩ := analyze_result_ok env w idea ⟨f, hf⟩
    exact ⟨a, ha⟩
  · intro hfail
    rcases hfail with hkey | hexn | ⟨st, c, ho, hne⟩ | ⟨st, ho⟩
    · simp [analyze_idea_quality, hkey]
    · by_cases hkey : env.OPENAI_API_KEY = []
      · simp [analyze_idea_quality, hkey]
      · simp [analyze_idea_quality, hkey, hf, hexn]
    · by_cases hkey : env.OPENAI_API_KEY = []
      · simp [analyze_idea_quality, hkey]
      · simp [analyze_idea_quality, hkey, hf, ho, hne]
    · by_cases hkey : env.OPENAI_API_KEY = []
      · simp [analyze_idea_quality, hkey]
      · by_cases hst : st = 200
        · subst hst
          simp [analyze_idea_quality, hkey, hf, ho]
        · simp [analyze_idea_quality, hkey, hf, ho, hst]

/-- Claim C5 witness: a transport exception makes the analyzer return
`None` without raising. -/
theorem c5_analyzer_degrades_witness :
    (analyze_idea_quality ⟨[], [], "k".data⟩ ⟨.exn, .exn, .exn⟩ (.obj [])).1 =
      .ok none :=
  (c5_analyzer_degrades ⟨[], [], "k".data⟩ ⟨.exn, .exn, .exn⟩ (.obj [])
    ⟨_, rfl⟩).2 (Or.inr (Or.inl rfl))

/-- Claim C6, counterexample.  At input `"ab"` with limit 1 the output is
`"a…"`, which is not a prefix of `"ab"`: the ellipsis character appended on
truncation is not part of the input, so the claim's "the output is a prefix
of the input when truncated" is false as stated. -/
theorem c6_counterexample :
    ¬((shorten "ab".data 1).length ≤ 1 + 1 ∧
      (("ab".data : PyStr).length ≤ 1 → shorten "ab".data 1 = "ab".data) ∧
      (1 < ("ab".data : PyStr).length →
        (shorten "ab".data 1).isPrefixOf "ab".data = true)) := by
  decide

/-- Claim C6, amended.  For every string and limit L: the output length is
at most L+1; within the limit the string is returned unchanged; and on
truncation the output is exactly the L-character prefix of the input
followed by the ellipsis character (so the output minus its final marker is
a prefix of the input, witnessed by `take ++ drop`), of length exactly
L+1. -/
theorem c6_shorten_truncation_law (s : PyStr) (L : Nat) :
    (shorten s L).length ≤ L + 1 ∧
    (s.length ≤ L → shorten s L = s) ∧
    (L < s.length → shorten s L = s.take L ++ ['…'] ∧
      (shorten s L).length = L + 1 ∧ s.take L ++ s.drop L = s) := by
  unfold shorten
  by_cases h0 : s = []
  · subst h0
    simp
  · rw [if_neg h0]
    by_cases hle : s.length ≤ L
    · rw [if_pos hle]
      exact ⟨Nat.le_succ_of_le hle, fun _ => rfl,
        fun hgt => absurd hle (by omega)⟩
    · rw [if_neg hle]
      have hlen : (s.take L ++ ['…']).length = L + 1 := by
        simp [List.length_take]
        omega
      exact ⟨le_of_eq hlen, fun h => absurd h hle,
        fun _ => ⟨rfl, hlen, List.take_append_drop L s⟩⟩

/-- Claim C6 witness: `"abcd"` truncated at 2 is its 2-prefix plus the
marker, of length 3; `"ab"` within limit 3 is unchanged. -/
theorem c6_shorten_truncation_law_witness :
    shorten "abcd".data 2 = ("abcd".data : PyStr).take 2 ++ ['…'] ∧
    (shorten "abcd".data 2).length = 2 + 1 ∧
    shorten "ab".data 3 = "ab".data :=
  ⟨((c6_shorten_truncation_law "abcd".data 2).2.2 (by decide)).1,
   ((c6_shorten_truncation_law "abcd".data 2).2.2 (by decide)).2.1,
   (c6_shorten_truncation_law "ab".data 3).2.1 (by decide)⟩

/-- Claim C7.  Markup stripping maps the empty input to the empty output,
and is idempotent: stripping cannot create a new tag-like substring, since a
kept `<` is either immediately followed by `>` or has no `>` after it. -/
theorem c7_strip_html_idempotent :
    strip_html [] = [] ∧
    ∀ s : PyStr, strip_html (strip_html s) = strip_html s :=
  ⟨rfl, fun s => strip_html_of_noTag (noTag_strip_html s)⟩

/-- Claim C8.  With no Slack webhook URL configured the notifier performs
zero network calls and returns normally; and for every configured URL and
every transport outcome, the notifier returns normally (transport failures
are swallowed by its `try/except: pass`). -/
theorem c8_slack_notify_best_effort (env : Env) (w : World) (text : PyStr)
    (blocks : Option (List Block)) :
    (env.SLACK_WEBHOOK_URL = [] →
      slack_notify env w text blocks = (.ok (), [])) ∧
    (slack_notify env w text blocks).1 = .ok () := by
  constructor
  · intro h
    simp [slack_notify, h]
  · unfold slack_notify
    split
    · rfl
    · cases w.slack <;> rfl

/-- Claim C8 witness: unset URL means no calls; a transport failure on a
configured URL is swallowed. -/
theorem c8_slack_notify_best_effort_witness :
    slack_notify ⟨[], [], []⟩ ⟨.exn, .exn, .exn⟩ "t".data none =
      (.ok (), []) ∧
    (slack_notify ⟨[], "https://hooks".data, []⟩ ⟨.exn, .exn, .exn⟩
      "t".data none).1 = .ok () :=
  ⟨(c8_slack_notify_best_effort ⟨[], [], []⟩ ⟨.exn, .exn, .exn⟩
      "t".data none).1 rfl,
   (c8_slack_notify_best_effort ⟨[], "https://hooks".data, []⟩
      ⟨.exn, .exn, .exn⟩ "t".data none).2⟩

/-- Claim C9, counterexample.  The payload `{"event": ""}` contains an
`event` field that is present and is not a creation event type, yet the
handler does not skip: the falsy `""` fails the `if event_type` truthiness
test at line 284, so the request proceeds and answers `"ok"` /
`"no_action_needed"` instead of `"skipped"`. -/
theorem c9_counterexample :
    aha_webhook ⟨[], [], []⟩ ⟨.exn, .exn, .exn⟩
        (some (.obj [("event", .str [])])) =
      (.ok (.jsonResp (noActionJson "None".data)), []) ∧
    jField (noActionJson "None".data) "status" = .str "ok".data ∧
    jField (skippedJson (.str [])) "status" = .str "skipped".data ∧
    ("ok".data : PyStr) ≠ "skipped".data :=
  ⟨rfl, rfl, rfl, by decide⟩

/-- Claim C9, amended.  For every POST payload whose `event` field is truthy
and not `"create"`/`"created"`, the handler short-circuits with the 200 JSON
`{"status": "skipped", ...}` and performs zero outbound calls. -/
theorem c9_truthy_event_skipped (env : Env) (w : World)
    (kvs : List (String × JVal))
    (hev : truthy (jLookup kvs "event") = true)
    (hne : isCreationEvent (jLookup kvs "event") = false) :
    aha_webhook env w (some (.obj kvs)) =
      (.ok (.jsonResp (skippedJson (jLookup kvs "event"))), []) ∧
    jField (skippedJson (jLookup kvs "event")) "status" =
      .str "skipped".data := by
  refine ⟨?_, rfl⟩
  rw [aha_webhook_obj]
  unfold webhookPost
  split
  · rename_i kvs' hkvs
    injection hkvs with hkvs
    subst hkvs
    split
    · rfl
    · rename_i hcond
      exfalso
      rw [hev, hne] at hcond
      simp at hcond
  · rename_i hne2
    exact absurd rfl (hne2 kvs)

/-- Claim C9 witness: the event type `"update"` is skipped with zero
calls. -/
theorem c9_truthy_event_skipped_witness :
    aha_webhook ⟨[], [], []⟩ ⟨.exn, .exn, .exn⟩
        (some (.obj [("event", .str "update".data)])) =
      (.ok (.jsonResp (skippedJson
        (jLookup [("event", .str "update".data)] "event"))), []) ∧
    jField (skippedJson (jLookup [("event", .str "update".data)] "event"))
      "status" = .str "skipped".data :=
  c9_truthy_event_skipped ⟨[], [], []⟩ ⟨.exn, .exn, .exn⟩
    [("event", .str "update".data)] rfl rfl

/-- Composition of the two extraction steps of `build_slack_blocks`. -/
theorem build_slack_blocks_eq (env : Env) (idea critique : JVal)
    (f : IdeaFields) (c : PyStr)
    (hf : extractIdeaFields env idea = .ok f)
    (hc : shortenJ critique 2800 = .ok c) :
    build_slack_blocks env idea critique = .ok (blocksFromFields f c) := by
  unfold build_slack_blocks
  rw [hf, hc]
  rfl

/-- A successful block build comes from successful extraction and critique
shortening. -/
theorem build_slack_blocks_ok_inv (env : Env) (idea critique : JVal)
    (bs : List Block) (h : build_slack_blocks env idea critique = .ok bs) :
    ∃ f c, extractIdeaFields env idea = .ok f ∧
      shortenJ critique 2800 = .ok c ∧ bs = blocksFromFields f c := by
  cases hf : extractIdeaFields env idea with
  | error e =>
    have he : build_slack_blocks env idea critique = .error e := by
      unfold build_slack_blocks
      rw [hf]
      rfl
    rw [he] at h
    exact absurd h (by simp)
  | ok f =>
    cases hc : shortenJ critique 2800 with
    | error e =>
      have he : build_slack_blocks env idea critique = .error e := by
        unfold build_slack_blocks
        rw [hf, hc]
        rfl
      rw [he] at h
      exact absurd h (by simp)
    | ok c =>
      rw [build_slack_blocks_eq env idea critique f c hf hc] at h
      injection h with h
      exact ⟨f, c, rfl, rfl, h.symm⟩

/-- Claim C10.  Whenever the block builder returns, it returns exactly nine
blocks in the fixed order: a header with the idea name, a two-column field
section, a divider, one `sectionBlock` per content field (current behavior,
impact, requested behavior, description — each rendering either the
truncated text or the "[Not provided]" marker, per `sectionBlock`), a
divider, and the critique section. -/
theorem c10_blocks_shape (env : Env) (idea critique : JVal) (bs : List Block)
    (h : build_slack_blocks env idea critique = .ok bs) :
    bs.length = 9 ∧
    ∃ f c, extractIdeaFields env idea = .ok f ∧
      shortenJ critique 2800 = .ok c ∧
      bs = blocksFromFields f c ∧
      bs[0]? = some (.header ("⚠️ Needs review: ".data ++ pyStr f.idea_name)) ∧
      (∃ g1 g2, bs[1]? = some (.fieldsSection g1 g2)) ∧
      bs[2]? = some .divider ∧
      bs[3]? = some (sectionBlock
        "Current behavior (What is the challenge?)".data f.current) ∧
      bs[4]? = some (sectionBlock
        "Impact (How this affects workflow/goals)".data f.impact) ∧
      bs[5]? = some (sectionBlock
        "Requested behavior (Improvement needed)".data f.request_txt) ∧
      bs[6]? = some (sectionBlock "Additional description".data f.desc) ∧
      bs[7]? = some .divider ∧
      bs[8]? = some (.textSection
        ("*🤖 AI Product Manager Review*\n".data ++ c)) := by
  obtain ⟨f, c, hf, hc, hbs⟩ := build_slack_blocks_ok_inv env idea critique bs h
  subst hbs
  exact ⟨rfl, f, c, hf, hc, rfl, rfl, ⟨_, _, rfl⟩, rfl, rfl, rfl, rfl, rfl,
    rfl, rfl⟩

/-- Claim C10 witness: a concrete idea dict and critique build nine
blocks. -/
theorem c10_blocks_shape_witness :
    ∃ bs, build_slack_blocks ⟨[], [], []⟩ (.obj [("id", .str "1".data)])
        (.str "fine".data) = .ok bs ∧ bs.length = 9 :=
  ⟨_, rfl, (c10_blocks_shape ⟨[], [], []⟩ (.obj [("id", .str "1".data)])
    (.str "fine".data) _ rfl).1⟩
